import Mathlib

/-!
Verification development for the rs-ingest captive-core ingestion engine.

This file gives a shallow embedding of the ingestion core and proves, or
refutes, the behavioural claims of the specification against it:

- the Frame Reader (`BufferedLedgerMetaReader`, from
  src/buffered_ledger_meta_reader.rs): mode-checked construction, the
  single-thread and multi-thread drain loops, snapshot and clear, and the
  mode-only clone stub;
- the Runner (`StellarCoreRunner`, from src/core_runner.rs): the status
  state machine, the child-process CLI invocations it performs (recorded as
  an event trace), the staggered catchup partition, and close/kill;
- the Facade (`CaptiveCore`, from src/captive_core.rs): range preparation,
  close_runner_process, and get_ledger lookup.

Modelling conventions:
- Rust panics (unwrap on a None / on a failed channel send, and the wait on
  an absent child) are modelled by `Option`: `none` is a panic, `some x` is
  a normal return of `x`.
- The decoded frame stream (the output of the external XDR framed-record
  iterator over the child pipe) is a `List Frame`: one element per attempted
  framed unit, `Frame.ok meta` for a successful decode and `Frame.err` for a
  decode failure (the source drops the underlying cause with `Err(_)`).
- Machine integers (u32 range arithmetic) are `Nat` with explicit wrapping
  modulo 2^32 (`wadd`, `wsub`, `wmul`), matching release-build semantics;
  where the theorems need overflow-free side conditions they carry them as
  hypotheses.
- Child-process spawns and waits are recorded in a `RunnerEvent` trace; the
  environment (did the exec succeed, what did the child emit on its pipe)
  is passed in as explicit parameters.
- The ledger-close record is opaque to the core except for the fields the
  embedded operations inspect; only the version tag and the ledger sequence
  are modelled.
-/

namespace RsIngest

/-- The size of one machine word of the range arithmetic: 2^32. -/
def U32 : Nat := 4294967296

/-- Wrapping u32 addition. -/
def wadd (a b : Nat) : Nat := (a + b) % U32

/-- Wrapping u32 subtraction (for `a b < U32`). -/
def wsub (a b : Nat) : Nat := (a + U32 - b) % U32

/-- Wrapping u32 multiplication. -/
def wmul (a b : Nat) : Nat := (a * b) % U32

/-- `stellar_xdr::next::LedgerCloseMeta`, opaque to the core except for the
version tag and the ledger sequence read by `CaptiveCore::get_ledger`
(src/captive_core.rs lines 159-162). -/
inductive LedgerCloseMeta
  | V0 (ledger_seq : Nat)
  | V1 (ledger_seq : Nat)
  deriving DecidableEq

/-- The ledger sequence extracted by the `match` in `CaptiveCore::get_ledger`:
`V1(v1) => v1.ledger_header.header.ledger_seq`, `V0(v0) => ...`. -/
def LedgerCloseMeta.ledgerSeqOf : LedgerCloseMeta → Nat
  | .V0 s => s
  | .V1 s => s

/-- `BufReaderError` (src/buffered_ledger_meta_reader.rs lines 11-40).
Payloads that no embedded operation inspects are dropped. -/
inductive BufReaderError
  | UnknownType
  | ReadXdrNext
  | UnusedTransmitter
  | MissingTransmitter
  | WrongModeMultiThread
  | WrongModeSingleThread
  | UsedClonedBufreader
  deriving DecidableEq

/-- `LedgerCloseMetaWrapper` (src/buffered_ledger_meta_reader.rs lines 43-47). -/
structure LedgerCloseMetaWrapper where
  ledger_close_meta : LedgerCloseMeta
  deriving DecidableEq

/-- `MetaResult` (src/buffered_ledger_meta_reader.rs lines 74-81). -/
structure MetaResult where
  ledger_close_meta : Option LedgerCloseMetaWrapper
  err : Option BufReaderError
  deriving DecidableEq

/-- One item yielded by `read_xdr_framed_iter` over the child pipe: one
attempted framed unit, either a decoded record or a decode failure. -/
inductive Frame
  | ok (meta : LedgerCloseMeta)
  | err
  deriving DecidableEq

/-- The per-frame `match` of both drain loops
(src/buffered_ledger_meta_reader.rs lines 225-235 and 289-299): a decoded
frame becomes a record-carrying `MetaResult`, a failed frame becomes an
error-flavored `MetaResult` with kind `ReadXdrNext`. -/
def processFrame : Frame → MetaResult
  | .ok m => ⟨some ⟨m⟩, none⟩
  | .err => ⟨none, some .ReadXdrNext⟩

/-- `BufferedLedgerMetaReaderMode` (src/buffered_ledger_meta_reader.rs
lines 84-91). -/
inductive BufferedLedgerMetaReaderMode
  | SingleThread
  | MultiThread
  deriving DecidableEq

/-- `BufferedLedgerMetaReader` (src/buffered_ledger_meta_reader.rs
lines 94-118). `reader` holds the not-yet-consumed frame stream of the
wrapped pipe; `cached` is the single-thread buffer; `transmitter` records
whether a channel sender is attached; `cloned` marks the mode-only stub. -/
structure BufferedLedgerMetaReader where
  mode : BufferedLedgerMetaReaderMode
  reader : Option (List Frame)
  cached : Option (List MetaResult)
  transmitter : Bool
  cloned : Bool
  deriving DecidableEq

/-- The `Clone` impl (src/buffered_ledger_meta_reader.rs lines 120-124):
a mode-only stub with every sink dropped and `cloned = true`. -/
def BufferedLedgerMetaReader.cloneStub
    (r : BufferedLedgerMetaReader) : BufferedLedgerMetaReader :=
  ⟨r.mode, none, none, false, true⟩

/-- `BufferedLedgerMetaReader::new` (src/buffered_ledger_meta_reader.rs
lines 138-166): SingleThread with a sender is `UnusedTransmitter`,
MultiThread without one is `MissingTransmitter`; otherwise the mode-proper
sink is installed (an empty buffer with capacity hint for SingleThread). -/
def BufferedLedgerMetaReader.new (mode : BufferedLedgerMetaReaderMode)
    (stream : List Frame) (transmitter : Bool) :
    Except BufReaderError BufferedLedgerMetaReader :=
  match mode with
  | .SingleThread =>
    if transmitter then .error .UnusedTransmitter
    else .ok ⟨.SingleThread, some stream, some [], false, false⟩
  | .MultiThread =>
    if !transmitter then .error .MissingTransmitter
    else .ok ⟨.MultiThread, some stream, none, true, false⟩

/-- `thread_mode` (src/buffered_ledger_meta_reader.rs lines 173-175). -/
def BufferedLedgerMetaReader.thread_mode
    (r : BufferedLedgerMetaReader) : BufferedLedgerMetaReaderMode := r.mode

/-- `single_thread_read_ledger_meta_from_pipe`
(src/buffered_ledger_meta_reader.rs lines 215-244): mode check, clone
check, then the drain loop pushes one `MetaResult` per frame into the
cached buffer until the stream ends. The unwraps on the absent reader or
buffer are panics (`none`). -/
def BufferedLedgerMetaReader.single_thread_read_ledger_meta_from_pipe
    (r : BufferedLedgerMetaReader) :
    Option (Except BufReaderError BufferedLedgerMetaReader) :=
  if r.mode ≠ .SingleThread then some (.error .WrongModeMultiThread)
  else if r.cloned then some (.error .UsedClonedBufreader)
  else
    match r.reader, r.cached with
    | some frames, some buf =>
      some (.ok { r with reader := some [],
                         cached := some (buf ++ frames.map processFrame) })
    | _, _ => none

/-- `read_meta` (src/buffered_ledger_meta_reader.rs lines 246-260):
mode check, clone check, then a copy of the cached buffer. -/
def BufferedLedgerMetaReader.read_meta (r : BufferedLedgerMetaReader) :
    Option (Except BufReaderError (List MetaResult)) :=
  if r.mode ≠ .SingleThread then some (.error .WrongModeMultiThread)
  else if r.cloned then some (.error .UsedClonedBufreader)
  else
    match r.cached with
    | some buf => some (.ok buf)
    | none => none

/-- `clear_buffered` (src/buffered_ledger_meta_reader.rs lines 262-273):
mode check, clone check, then the buffer is replaced by an empty one. -/
def BufferedLedgerMetaReader.clear_buffered (r : BufferedLedgerMetaReader) :
    Option (Except BufReaderError BufferedLedgerMetaReader) :=
  if r.mode ≠ .SingleThread then some (.error .WrongModeMultiThread)
  else if r.cloned then some (.error .UsedClonedBufreader)
  else some (.ok { r with cached := some [] })

/-- `multi_thread_read_ledger_meta_from_pipe`
(src/buffered_ledger_meta_reader.rs lines 279-308): mode check, clone
check, then the drain loop sends one `MetaResult` per frame with
`send(meta_obj).unwrap()`. With the receiving end alive every send
succeeds and the whole mapped stream is delivered; with the receiving end
dropped the first send fails and the `unwrap` panics (`none`) — unless the
stream is empty, in which case no send is attempted. Returns the sequence
of delivered items together with the post-state. -/
def BufferedLedgerMetaReader.multi_thread_read_ledger_meta_from_pipe
    (r : BufferedLedgerMetaReader) (receiverOpen : Bool) :
    Option (Except BufReaderError (List MetaResult × BufferedLedgerMetaReader)) :=
  if r.mode ≠ .MultiThread then some (.error .WrongModeSingleThread)
  else if r.cloned then some (.error .UsedClonedBufreader)
  else
    match r.reader with
    | none => none
    | some frames =>
      if !r.transmitter then none
      else if receiverOpen then
        some (.ok (frames.map processFrame, { r with reader := some [] }))
      else if frames.isEmpty then some (.ok ([], { r with reader := some [] }))
      else none

/-- `SupportedNetwork` (src/ingestion_config.rs). -/
inductive SupportedNetwork
  | Futurenet
  | Pubnet
  | Testnet
  deriving DecidableEq

/-- `IngestionConfig` (src/ingestion_config.rs). -/
structure IngestionConfig where
  executable_path : String
  context_path : String
  network : SupportedNetwork
  bounded_buffer_size : Option Nat
  staggered : Option Nat
  deriving DecidableEq

/-- `RunnerStatus` (src/core_runner.rs lines 16-25). -/
inductive RunnerStatus
  | RunningOffline
  | RunningOnline
  | Closed
  deriving DecidableEq

/-- `RunnerError` (src/core_runner.rs lines 49-73). The io payload of
`Process` is dropped; `AlreadyClosed` is declared by the source with doc
"The instance of the core has already been closed" but is never
constructed anywhere in the repository. -/
inductive RunnerError
  | AlreadyRunning
  | CliExec
  | MetaReader (inner : BufReaderError)
  | AlreadyClosed
  | Process
  | ProcessNotFound
  deriving DecidableEq

/-- `StellarCoreRunner` (src/core_runner.rs lines 28-45). `process` records
whether a child handle is currently held (`Option<Child>` in the source). -/
structure StellarCoreRunner where
  executable_path : String
  context_path : String
  status : RunnerStatus
  ledger_buffer_reader : Option BufferedLedgerMetaReader
  prepared : Option (List MetaResult)
  process : Bool
  bounded_buffer_size : Option Nat
  staggered : Option Nat
  deriving DecidableEq

/-- One observable action of the Runner on the operating system: spawning
the validator child with a full argument vector, or synchronously waiting
on the current child. -/
inductive RunnerEvent
  | spawn (args : List String)
  | waitChild
  deriving DecidableEq

/-- The common argument suffix appended by `run_core_cli`
(src/core_runner.rs lines 77-86): the `--conf` argument and `--ll INFO`. -/
def commonSuffix (context_path : String) : List String :=
  ["--conf " ++ context_path ++ "/stellar-core.cfg", "--ll INFO"]

/-- `run_core_cli` (src/core_runner.rs lines 76-98): spawns the validator
with the mode-specific arguments plus the common suffix, stdout piped; on
success the child handle is stored, on spawn failure `CliExec`. The spawn
attempt is recorded as an event either way. -/
def StellarCoreRunner.run_core_cli (r : StellarCoreRunner)
    (args : List String) (spawnOk : Bool) :
    RunnerEvent × Except RunnerError StellarCoreRunner :=
  (.spawn (args ++ commonSuffix r.context_path),
   if spawnOk then .ok { r with process := true } else .error .CliExec)

/-- `kill_process` (src/core_runner.rs lines 100-113): kill the held child
if any; with no child, stagger mode tolerates the nil child, otherwise
`ProcessNotFound`. The io error path of `kill` is environment-determined
and not modelled. -/
def StellarCoreRunner.kill_process (r : StellarCoreRunner) :
    Except RunnerError StellarCoreRunner :=
  if r.process then .ok { r with process := false }
  else if r.staggered.isSome then .ok r
  else .error .ProcessNotFound

/-- `close_runner` (src/core_runner.rs lines 459-471). Note the guard: a
close while already `Closed` returns `AlreadyRunning` (source line 461),
not the declared-but-dead `AlreadyClosed`. Afterwards the status becomes
`Closed`, the child is killed, the scratch `buckets` directory is removed
(an `rm -rf` spawn, not modelled further) and the reader is released. -/
def StellarCoreRunner.close_runner (r : StellarCoreRunner) :
    Except RunnerError StellarCoreRunner :=
  if r.status = .Closed then .error .AlreadyRunning
  else
    match ({ r with status := RunnerStatus.Closed } :
        StellarCoreRunner).kill_process with
    | .error e => .error e
    | .ok r2 => .ok { r2 with ledger_buffer_reader := none }

/-- `thread_mode` (src/core_runner.rs lines 145-151). -/
def StellarCoreRunner.thread_mode (r : StellarCoreRunner) :
    Option BufferedLedgerMetaReaderMode :=
  r.ledger_buffer_reader.map (fun blr => blr.mode)

/-- `read_prepared` (src/core_runner.rs lines 455-457): unwraps the
prepared set — a panic (`none`) when no single-thread preparation has
populated it. -/
def StellarCoreRunner.read_prepared (r : StellarCoreRunner) :
    Option (List MetaResult) := r.prepared

/-- `StellarCoreRunnerPublic::new` (src/core_runner.rs lines 182-193). -/
def StellarCoreRunner.new (config : IngestionConfig) : StellarCoreRunner :=
  { executable_path := config.executable_path
    context_path := config.context_path
    status := .Closed
    ledger_buffer_reader := none
    prepared := none
    process := false
    bounded_buffer_size := config.bounded_buffer_size
    staggered := config.staggered }

/-- The offline catchup argument vector (src/core_runner.rs lines 202-209,
also lines 261-267 and 404-411): `catchup --in-memory {to}/{to-from+1}
--metadata-output-stream fd:1`, the count in wrapping u32 arithmetic. -/
def catchupArgs (fromL toL : Nat) : List String :=
  ["catchup", "--in-memory",
   toString toL ++ "/" ++ toString (wadd (wsub toL fromL) 1),
   "--metadata-output-stream fd:1"]

/-- The online-stream argument vector (src/core_runner.rs line 443). -/
def runArgs : List String := ["run", "--metadata-output-stream fd:1"]

/-- `catchup_single_thread` (src/core_runner.rs lines 195-243): status
guard, transition to `RunningOffline`, spawn the catchup child, build a
SingleThread reader over its stdout, drain it, load the prepared set from
the buffer, then self-close. `frames` is what the framed-record iterator
yields from the child pipe; `spawnOk` is whether the exec succeeds. The
post-error runner state (the source mutates through `&mut self` before an
early return) is not observed by any caller in the repository and is not
modelled. -/
def StellarCoreRunner.catchup_single_thread (r : StellarCoreRunner)
    (fromL toL : Nat) (spawnOk : Bool) (frames : List Frame) :
    List RunnerEvent × Option (Except RunnerError StellarCoreRunner) :=
  if r.status ≠ .Closed then ([], some (.error .AlreadyRunning))
  else
    let r1 := { r with status := RunnerStatus.RunningOffline }
    let spawned := r1.run_core_cli (catchupArgs fromL toL) spawnOk
    match spawned.2 with
    | .error e => ([spawned.1], some (.error e))
    | .ok r2 =>
      match BufferedLedgerMetaReader.new .SingleThread frames false with
      | .error e => ([spawned.1], some (.error (.MetaReader e)))
      | .ok blr =>
        match blr.single_thread_read_ledger_meta_from_pipe with
        | none => ([spawned.1], none)
        | some (.error e) => ([spawned.1], some (.error (.MetaReader e)))
        | some (.ok blr2) =>
          match blr2.read_meta with
          | none => ([spawned.1], none)
          | some (.error e) => ([spawned.1], some (.error (.MetaReader e)))
          | some (.ok metas) =>
            let r3 := { r2 with ledger_buffer_reader := some blr2,
                                prepared := some metas }
            match r3.close_runner with
            | .error e => ([spawned.1], some (.error e))
            | .ok r4 => ([spawned.1], some (.ok r4))

/-- The shared tail of the non-staggered multi-thread starts
(`start_and_transmitter` / `start_and_sync_transmitter`,
src/core_runner.rs lines 652-711): spawn the child with the given
arguments, build a MultiThread reader with a channel sender over its
stdout, hand the reader to a producer thread, and store a mode-only clone
of it on the Runner. The bounded and unbounded variants differ only in the
channel flavour, which has no observable effect on the embedded state. -/
def StellarCoreRunner.start_multi (r : StellarCoreRunner)
    (args : List String) (spawnOk : Bool) (frames : List Frame) :
    List RunnerEvent × Option (Except RunnerError StellarCoreRunner) :=
  let spawned := r.run_core_cli args spawnOk
  match spawned.2 with
  | .error e => ([spawned.1], some (.error e))
  | .ok r2 =>
    match BufferedLedgerMetaReader.new .MultiThread frames true with
    | .error e => ([spawned.1], some (.error (.MetaReader e)))
    | .ok blr =>
      ([spawned.1],
       some (.ok { r2 with ledger_buffer_reader := some blr.cloneStub }))

/-- The staggered partition of `[fromL, toL]` (src/core_runner.rs
lines 256-292): `stagger_times = (to - from) / S`,
`step = (to - from + 1) / stagger_times`, and segment `i` runs from
`from + i * step` to `min(start + step - 1, to)`, in u32 arithmetic. -/
def staggerRanges (fromL toL staggerEvery : Nat) : List (Nat × Nat) :=
  let staggerTimes := wsub toL fromL / staggerEvery
  let step := wadd (wsub toL fromL) 1 / staggerTimes
  (List.range staggerTimes).map fun i =>
    let start := wadd fromL (wmul i step)
    (start, min (wsub (wadd start step) 1) toL)

/-- `catchup_multi_thread` (src/core_runner.rs lines 245-422): status
guard, transition to `RunningOffline`; without stagger (or with a stagger
count of at most one) a single full-range child is spawned through the
multi-thread start; otherwise a supervisor thread sequentially spawns one
child per staggered segment with the catchup arguments of that segment
(including `--in-memory`, src lines 299-305 and 360-366) while the caller
immediately receives the channel receiver. The supervisor spawns are
recorded in the trace (truncated at the first failing exec, whose error
only escapes into the supervisor closure); neither the child handle nor a
reader is stored on the Runner in the staggered branch (the assignment is
commented out in the source, lines 326 and 387). -/
def StellarCoreRunner.catchup_multi_thread (r : StellarCoreRunner)
    (fromL toL : Nat) (spawnOk : Bool) (frames : List Frame) :
    List RunnerEvent × Option (Except RunnerError StellarCoreRunner) :=
  if r.status ≠ .Closed then ([], some (.error .AlreadyRunning))
  else
    let r1 := { r with status := RunnerStatus.RunningOffline }
    match r1.staggered with
    | some staggerEvery =>
      if wsub toL fromL / staggerEvery ≤ 1 then
        r1.start_multi (catchupArgs fromL toL) spawnOk frames
      else
        let ranges := staggerRanges fromL toL staggerEvery
        ((if spawnOk then ranges else ranges.take 1).map fun p =>
          RunnerEvent.spawn (catchupArgs p.1 p.2 ++ commonSuffix r1.context_path),
         some (.ok r1))
    | none => r1.start_multi (catchupArgs fromL toL) spawnOk frames

/-- `run` (src/core_runner.rs lines 424-453): status guard, transition to
`RunningOnline`; then one synchronous warm-up invocation
`catchup current/2` whose spawn error is discarded (`let _ =`, source
line 439) but whose child is awaited with
`self.process.as_mut().unwrap().wait().unwrap()` — a panic (`none`) when
the spawn failed and no child was held (the `new-db` invocation the
surrounding comment mentions is commented out, source lines 436-437);
finally the long-running child is spawned with
`run --metadata-output-stream fd:1` and wired like a multi-thread catchup. -/
def StellarCoreRunner.run (r : StellarCoreRunner)
    (spawnOk1 spawnOk2 : Bool) (frames : List Frame) :
    List RunnerEvent × Option (Except RunnerError StellarCoreRunner) :=
  if r.status ≠ .Closed then ([], some (.error .AlreadyRunning))
  else
    let r1 := { r with status := RunnerStatus.RunningOnline }
    let spawned := r1.run_core_cli ["catchup", "current/2"] spawnOk1
    let r2 := match spawned.2 with
      | .ok rOk => rOk
      | .error _ => r1
    if !r2.process then ([spawned.1], none)
    else
      let tail := r2.start_multi runArgs spawnOk2 frames
      (spawned.1 :: RunnerEvent.waitChild :: tail.1, tail.2)

/-- `captive_core::Error` (src/captive_core.rs lines 38-50). -/
inductive CoreError
  | Core (inner : RunnerError)
  | LedgerNotFound
  | CloseOnSingleThread
  deriving DecidableEq

/-- `Range` over `BoundedRange` (src/captive_core.rs lines 10-17),
flattened to its two bounds. -/
inductive IngestRange
  | Bounded (fromL toL : Nat)
  deriving DecidableEq

/-- `CaptiveCore` (src/captive_core.rs lines 53-56). -/
structure CaptiveCore where
  stellar_core_runner : StellarCoreRunner
  deriving DecidableEq

/-- `CaptiveCore::new` (src/captive_core.rs lines 60-67): writes the
network configuration file (file-system effect, not modelled) and builds
an idle Runner from the configuration. -/
def CaptiveCore.new (config : IngestionConfig) : CaptiveCore :=
  ⟨StellarCoreRunner.new config⟩

/-- `prepare_ledgers_single_thread` (src/captive_core.rs lines 94-102,
through `offline_replay_single_thread`, lines 69-75): destructure the
bounded range and delegate its two bounds to the Runner unchanged; Runner
errors are wrapped in `CoreError.Core` by the `#[from]` conversion. -/
def CaptiveCore.prepare_ledgers_single_thread (c : CaptiveCore)
    (range : IngestRange) (spawnOk : Bool) (frames : List Frame) :
    List RunnerEvent × Option (Except CoreError CaptiveCore) :=
  match range with
  | .Bounded fromL toL =>
    let res := c.stellar_core_runner.catchup_single_thread fromL toL spawnOk frames
    (res.1,
     res.2.map fun x =>
       match x with
       | .ok r => .ok ⟨r⟩
       | .error e => .error (.Core e))

/-- `prepare_ledgers_multi_thread` (src/captive_core.rs lines 114-123,
through `offline_replay_multi_thread`, lines 77-83): destructure the
bounded range and delegate to the multi-thread catchup. -/
def CaptiveCore.prepare_ledgers_multi_thread (c : CaptiveCore)
    (range : IngestRange) (spawnOk : Bool) (frames : List Frame) :
    List RunnerEvent × Option (Except CoreError CaptiveCore) :=
  match range with
  | .Bounded fromL toL =>
    let res := c.stellar_core_runner.catchup_multi_thread fromL toL spawnOk frames
    (res.1,
     res.2.map fun x =>
       match x with
       | .ok r => .ok ⟨r⟩
       | .error e => .error (.Core e))

/-- `close_runner_process` (src/captive_core.rs lines 134-142): reject with
`CloseOnSingleThread` when the Runner currently reports a SingleThread
reader, otherwise delegate to `close_runner` with Runner errors wrapped. -/
def CaptiveCore.close_runner_process (c : CaptiveCore) :
    Except CoreError CaptiveCore :=
  if c.stellar_core_runner.thread_mode = some .SingleThread then
    .error .CloseOnSingleThread
  else
    match c.stellar_core_runner.close_runner with
    | .ok r => .ok ⟨r⟩
    | .error e => .error (.Core e)

/-- The scan loop of `get_ledger` (src/captive_core.rs lines 156-170):
walk the prepared set, skip error-flavored results, return the first
record whose extracted sequence matches, else `LedgerNotFound`. -/
def getLedgerScan : List MetaResult → Nat → Except CoreError LedgerCloseMeta
  | [], _ => .error .LedgerNotFound
  | m :: rest, sequence =>
    match m.ledger_close_meta with
    | some wrapper =>
      if wrapper.ledger_close_meta.ledgerSeqOf = sequence then
        .ok wrapper.ledger_close_meta
      else getLedgerScan rest sequence
    | none => getLedgerScan rest sequence

/-- `get_ledger` (src/captive_core.rs lines 153-171): `read_prepared`
unwraps the prepared set — a panic (`none`) when no single-thread
preparation has populated it — then the linear scan above. -/
def CaptiveCore.get_ledger (c : CaptiveCore) (sequence : Nat) :
    Option (Except CoreError LedgerCloseMeta) :=
  match c.stellar_core_runner.read_prepared with
  | none => none
  | some prepared => some (getLedgerScan prepared sequence)

/-- `start_online_no_range` (src/captive_core.rs lines 187-189). -/
def CaptiveCore.start_online_no_range (c : CaptiveCore)
    (spawnOk1 spawnOk2 : Bool) (frames : List Frame) :
    List RunnerEvent × Option (Except CoreError CaptiveCore) :=
  let res := c.stellar_core_runner.run spawnOk1 spawnOk2 frames
  (res.1,
   res.2.map fun x =>
     match x with
     | .ok r => .ok ⟨r⟩
     | .error e => .error (.Core e))

/-- A representative configuration for concrete witnesses: the default
context path of `ContextPath::default()` (src/ingestion_config.rs), no
bounded buffer, no stagger. -/
def demoConfig : IngestionConfig :=
  { executable_path := "stellar-core"
    context_path := "/tmp/rs_ingestion_temp"
    network := .Futurenet
    bounded_buffer_size := none
    staggered := none }

/-- `demoConfig` with a stagger size of 10, for staggered-mode witnesses. -/
def demoConfigStaggered : IngestionConfig :=
  { demoConfig with staggered := some 10 }

instance {ε α : Type _} [DecidableEq ε] [DecidableEq α] :
    DecidableEq (Except ε α) := fun x y =>
  match x, y with
  | .ok a, .ok b =>
    if h : a = b then .isTrue (congrArg Except.ok h)
    else .isFalse fun hc => h (Except.ok.inj hc)
  | .error a, .error b =>
    if h : a = b then .isTrue (congrArg Except.error h)
    else .isFalse fun hc => h (Except.error.inj hc)
  | .ok _, .error _ => .isFalse fun hc => Except.noConfusion hc
  | .error _, .ok _ => .isFalse fun hc => Except.noConfusion hc

lemma wsub_eq_of_le {a b : Nat} (hba : b ≤ a) (ha : a < U32) :
    wsub a b = a - b := by
  simp only [wsub, U32] at *
  omega

lemma wadd_eq_of_lt {a b : Nat} (h : a + b < U32) : wadd a b = a + b := by
  simp only [wadd]
  exact Nat.mod_eq_of_lt h

lemma wmul_eq_of_lt {a b : Nat} (h : a * b < U32) : wmul a b = a * b := by
  simp only [wmul]
  exact Nat.mod_eq_of_lt h

/-- C1: For every input byte stream, a Frame Reader drain (single-thread or
multi-thread) produces exactly one MetaResult per attempted framed unit: a
successful decode yields a record-carrying MetaResult, a decode failure
yields an error-flavored MetaResult (kind `ReadXdrNext`, the `DecodeFrame`
kind of the spec), and a failure does not abort the drain — the loop runs
to end-of-input and no attempted frame is dropped. Stated over the frame
stream `frames` yielded by the framed-record iterator: both drains return
normally with an output sequence of exactly one `MetaResult` per frame, in
order, record-carrying exactly at the successfully decoded frames (the
multi-thread half is stated with the receiving end alive, so that every
send succeeds; the closed-receiver behaviour is the subject of C9). -/
theorem c1_drain_one_result_per_frame (frames : List Frame)
    (buf : List MetaResult) :
    ∃ out : List MetaResult,
      (BufferedLedgerMetaReader.mk .SingleThread (some frames) (some buf)
          false false).single_thread_read_ledger_meta_from_pipe
        = some (.ok (BufferedLedgerMetaReader.mk .SingleThread (some [])
            (some (buf ++ out)) false false)) ∧
      (BufferedLedgerMetaReader.mk .MultiThread (some frames) none true
          false).multi_thread_read_ledger_meta_from_pipe true
        = some (.ok (out, BufferedLedgerMetaReader.mk .MultiThread (some [])
            none true false)) ∧
      out.length = frames.length ∧
      (∀ (i : Nat) (m : LedgerCloseMeta), frames[i]? = some (Frame.ok m) →
        out[i]? = some (MetaResult.mk (some ⟨m⟩) none)) ∧
      (∀ i : Nat, frames[i]? = some Frame.err →
        out[i]? = some (MetaResult.mk none (some .ReadXdrNext)))
    := by
  refine ⟨frames.map processFrame, rfl, rfl, by simp, ?_, ?_⟩
  · intro i m h
    simp [List.getElem?_map, h, processFrame]
  · intro i h
    simp [List.getElem?_map, h, processFrame]

/-- Witness for C1 at a concrete two-frame stream (one decoded record, one
decode failure) and a nonempty pre-existing buffer. -/
theorem c1_drain_one_result_per_frame_witness :
    ∃ out : List MetaResult,
      (BufferedLedgerMetaReader.mk .SingleThread
          (some [Frame.ok (.V0 7), Frame.err])
          (some [MetaResult.mk (some ⟨.V0 3⟩) none]) false
          false).single_thread_read_ledger_meta_from_pipe
        = some (.ok (BufferedLedgerMetaReader.mk .SingleThread (some [])
            (some ([MetaResult.mk (some ⟨.V0 3⟩) none] ++ out)) false false)) ∧
      (BufferedLedgerMetaReader.mk .MultiThread
          (some [Frame.ok (.V0 7), Frame.err]) none true
          false).multi_thread_read_ledger_meta_from_pipe true
        = some (.ok (out, BufferedLedgerMetaReader.mk .MultiThread (some [])
            none true false)) ∧
      out.length = [Frame.ok (.V0 7), Frame.err].length ∧
      (∀ (i : Nat) (m : LedgerCloseMeta), [Frame.ok (.V0 7), Frame.err][i]? = some (Frame.ok m) →
        out[i]? = some (MetaResult.mk (some ⟨m⟩) none)) ∧
      (∀ i : Nat, [Frame.ok (.V0 7), Frame.err][i]? = some Frame.err →
        out[i]? = some (MetaResult.mk none (some .ReadXdrNext))) :=
  c1_drain_one_result_per_frame [Frame.ok (.V0 7), Frame.err]
    [MetaResult.mk (some ⟨.V0 3⟩) none]

/-- C2: Invoking any start entry point (catchup_single_thread,
catchup_multi_thread, run) while status is not Closed fails with
AlreadyRunning — this half holds. But invoking close_runner while status
is already Closed does NOT fail with AlreadyClosed: the guard at
src/core_runner.rs line 461 returns `AlreadyRunning` there, and the
`AlreadyClosed` variant (documented "The instance of the core has already
been closed") is never constructed anywhere in the repository — a slip in
the code. The final conjunct evaluates the code at the failing input. -/
theorem c2_start_guard_and_close_on_closed (r : StellarCoreRunner)
    (h : r.status ≠ RunnerStatus.Closed) (fromL toL : Nat)
    (spawnOk spawnOk2 : Bool) (frames : List Frame) :
    (r.catchup_single_thread fromL toL spawnOk frames).2
      = some (.error .AlreadyRunning) ∧
    (r.catchup_multi_thread fromL toL spawnOk frames).2
      = some (.error .AlreadyRunning) ∧
    (r.run spawnOk spawnOk2 frames).2 = some (.error .AlreadyRunning) ∧
    ∀ rc : StellarCoreRunner, rc.status = RunnerStatus.Closed →
      rc.close_runner = .error RunnerError.AlreadyRunning ∧
      rc.close_runner ≠ .error RunnerError.AlreadyClosed := by
  refine ⟨?_, ?_, ?_, ?_⟩
  · simp [StellarCoreRunner.catchup_single_thread, h]
  · simp [StellarCoreRunner.catchup_multi_thread, h]
  · simp [StellarCoreRunner.run, h]
  · intro rc hc
    constructor
    · simp [StellarCoreRunner.close_runner, hc]
    · simp [StellarCoreRunner.close_runner, hc]

/-- Witness for C2: a runner stuck in RunningOffline rejects every start
with AlreadyRunning, and the freshly constructed (Closed) runner answers
close_runner with AlreadyRunning, not AlreadyClosed. -/
theorem c2_start_guard_and_close_on_closed_witness :
    ({ StellarCoreRunner.new demoConfig with
        status := RunnerStatus.RunningOffline
      }.catchup_single_thread 3 5 true []).2
      = some (.error .AlreadyRunning) ∧
    ({ StellarCoreRunner.new demoConfig with
        status := RunnerStatus.RunningOffline
      }.catchup_multi_thread 3 5 true []).2
      = some (.error .AlreadyRunning) ∧
    ({ StellarCoreRunner.new demoConfig with
        status := RunnerStatus.RunningOffline }.run true true []).2
      = some (.error .AlreadyRunning) ∧
    ∀ rc : StellarCoreRunner, rc.status = RunnerStatus.Closed →
      rc.close_runner = .error RunnerError.AlreadyRunning ∧
      rc.close_runner ≠ .error RunnerError.AlreadyClosed :=
  c2_start_guard_and_close_on_closed
    { StellarCoreRunner.new demoConfig with
        status := RunnerStatus.RunningOffline }
    (by decide) 3 5 true true []

/-- C8 counterexample: a cloned (mode-only stub) handle does NOT fail with
UsedClonedReader on every operation: the mode check precedes the clone
check, so a cloned MultiThread stub answers the single-thread snapshot
operation (read_meta) with WrongModeMultiThread, not UsedClonedBufreader
(src/buffered_ledger_meta_reader.rs lines 247-253). -/
theorem c8_cloned_stub_wrong_mode_counterexample :
    (BufferedLedgerMetaReader.mk .MultiThread (some []) none true
        false).cloneStub.read_meta
      = some (.error .WrongModeMultiThread) ∧
    (BufferedLedgerMetaReader.mk .MultiThread (some []) none true
        false).cloneStub.read_meta
      ≠ some (.error .UsedClonedBufreader) := by
  constructor
  · rfl
  · decide

/-- C8 amended: an operation on a cloned stub fails with
UsedClonedBufreader exactly when the operation belongs to the stub's mode;
an operation of the other mode fails with the wrong-mode error instead,
because every operation checks the mode before the cloned flag
(src/buffered_ledger_meta_reader.rs lines 215-222, 246-253, 262-269,
279-286). -/
theorem c8_amended_clone_checked_after_mode (r : BufferedLedgerMetaReader) :
    (r.mode = .SingleThread →
      r.cloneStub.single_thread_read_ledger_meta_from_pipe
        = some (.error .UsedClonedBufreader) ∧
      r.cloneStub.read_meta = some (.error .UsedClonedBufreader) ∧
      r.cloneStub.clear_buffered = some (.error .UsedClonedBufreader) ∧
      ∀ receiverOpen : Bool,
        r.cloneStub.multi_thread_read_ledger_meta_from_pipe receiverOpen
          = some (.error .WrongModeSingleThread)) ∧
    (r.mode = .MultiThread →
      (∀ receiverOpen : Bool,
        r.cloneStub.multi_thread_read_ledger_meta_from_pipe receiverOpen
          = some (.error .UsedClonedBufreader)) ∧
      r.cloneStub.single_thread_read_ledger_meta_from_pipe
        = some (.error .WrongModeMultiThread) ∧
      r.cloneStub.read_meta = some (.error .WrongModeMultiThread) ∧
      r.cloneStub.clear_buffered = some (.error .WrongModeMultiThread)) := by
  constructor
  · intro h
    refine ⟨?_, ?_, ?_, ?_⟩ <;>
      simp [BufferedLedgerMetaReader.cloneStub, h,
        BufferedLedgerMetaReader.single_thread_read_ledger_meta_from_pipe,
        BufferedLedgerMetaReader.read_meta,
        BufferedLedgerMetaReader.clear_buffered,
        BufferedLedgerMetaReader.multi_thread_read_ledger_meta_from_pipe]
  · intro h
    refine ⟨?_, ?_, ?_, ?_⟩ <;>
      simp [BufferedLedgerMetaReader.cloneStub, h,
        BufferedLedgerMetaReader.single_thread_read_ledger_meta_from_pipe,
        BufferedLedgerMetaReader.read_meta,
        BufferedLedgerMetaReader.clear_buffered,
        BufferedLedgerMetaReader.multi_thread_read_ledger_meta_from_pipe]

/-- Witness for C8 amended at a concrete MultiThread reader. -/
theorem c8_amended_clone_checked_after_mode_witness :
    ((BufferedLedgerMetaReader.mk .MultiThread (some []) none true
        false).mode = .SingleThread →
      (BufferedLedgerMetaReader.mk .MultiThread (some []) none true
          false).cloneStub.single_thread_read_ledger_meta_from_pipe
        = some (.error .UsedClonedBufreader) ∧
      (BufferedLedgerMetaReader.mk .MultiThread (some []) none true
          false).cloneStub.read_meta = some (.error .UsedClonedBufreader) ∧
      (BufferedLedgerMetaReader.mk .MultiThread (some []) none true
          false).cloneStub.clear_buffered
        = some (.error .UsedClonedBufreader) ∧
      ∀ receiverOpen : Bool,
        (BufferedLedgerMetaReader.mk .MultiThread (some []) none true
            false).cloneStub.multi_thread_read_ledger_meta_from_pipe
            receiverOpen
          = some (.error .WrongModeSingleThread)) ∧
    ((BufferedLedgerMetaReader.mk .MultiThread (some []) none true
        false).mode = .MultiThread →
      (∀ receiverOpen : Bool,
        (BufferedLedgerMetaReader.mk .MultiThread (some []) none true
            false).cloneStub.multi_thread_read_ledger_meta_from_pipe
            receiverOpen
          = some (.error .UsedClonedBufreader)) ∧
      (BufferedLedgerMetaReader.mk .MultiThread (some []) none true
          false).cloneStub.single_thread_read_ledger_meta_from_pipe
        = some (.error .WrongModeMultiThread) ∧
      (BufferedLedgerMetaReader.mk .MultiThread (some []) none true
          false).cloneStub.read_meta = some (.error .WrongModeMultiThread) ∧
      (BufferedLedgerMetaReader.mk .MultiThread (some []) none true
          false).cloneStub.clear_buffered
        = some (.error .WrongModeMultiThread)) :=
  c8_amended_clone_checked_after_mode
    (BufferedLedgerMetaReader.mk .MultiThread (some []) none true false)

/-- C9 counterexample: with the receiving end dropped, the multi-thread
drain does NOT return — the `send(meta_obj).unwrap()` at
src/buffered_ledger_meta_reader.rs line 304 panics on the failed send
(modelled as `none`), so the operation neither returns Ok nor any error. -/
theorem c9_closed_receiver_panics_counterexample :
    (BufferedLedgerMetaReader.mk .MultiThread (some [Frame.err]) none true
        false).multi_thread_read_ledger_meta_from_pipe false = none ∧
    ¬ ∃ result,
      (BufferedLedgerMetaReader.mk .MultiThread (some [Frame.err]) none true
          false).multi_thread_read_ledger_meta_from_pipe false
        = some result := by
  constructor
  · rfl
  · intro ⟨result, hr⟩
    simp [BufferedLedgerMetaReader.multi_thread_read_ledger_meta_from_pipe]
      at hr

/-- C9 amended: if the receiving end has been dropped when the multi-thread
drain attempts a send, the drain panics at that first failed send (the
unwrap on the SendError), aborting the current read with no retry and no
normal return; only when the stream holds no frame at all — so that no
send is ever attempted — does the drain return normally. -/
theorem c9_amended_closed_receiver_panics (frames : List Frame)
    (h : frames ≠ []) :
    (BufferedLedgerMetaReader.mk .MultiThread (some frames) none true
        false).multi_thread_read_ledger_meta_from_pipe false = none ∧
    (BufferedLedgerMetaReader.mk .MultiThread (some []) none true
        false).multi_thread_read_ledger_meta_from_pipe false
      = some (.ok ([], BufferedLedgerMetaReader.mk .MultiThread (some [])
          none true false)) := by
  constructor
  · simp [BufferedLedgerMetaReader.multi_thread_read_ledger_meta_from_pipe,
      List.isEmpty_iff, h]
  · rfl

/-- Witness for C9 amended at a one-frame stream. -/
theorem c9_amended_closed_receiver_panics_witness :
    (BufferedLedgerMetaReader.mk .MultiThread (some [Frame.err]) none true
        false).multi_thread_read_ledger_meta_from_pipe false = none ∧
    (BufferedLedgerMetaReader.mk .MultiThread (some []) none true
        false).multi_thread_read_ledger_meta_from_pipe false
      = some (.ok ([], BufferedLedgerMetaReader.mk .MultiThread (some [])
          none true false)) :=
  c9_amended_closed_receiver_panics [Frame.err] (by decide)

/-- C10: on a freshly constructed Facade, before any single-thread
preparation has populated the prepared set, get_ledger panics for every
sequence (read_prepared unwraps the absent prepared set,
src/core_runner.rs lines 455-457) instead of returning LedgerNotFound;
and LedgerNotFound is only reachable once a prepared set exists. -/
theorem c10_get_ledger_before_prepare_panics (config : IngestionConfig)
    (s : Nat) :
    (CaptiveCore.new config).get_ledger s = none ∧
    (CaptiveCore.new config).get_ledger s
      ≠ some (.error CoreError.LedgerNotFound) ∧
    ∀ c : CaptiveCore, c.get_ledger s = some (.error CoreError.LedgerNotFound) →
      c.stellar_core_runner.prepared.isSome := by
  refine ⟨rfl, by simp [CaptiveCore.get_ledger, CaptiveCore.new,
    StellarCoreRunner.new, StellarCoreRunner.read_prepared], ?_⟩
  intro c hc
  unfold CaptiveCore.get_ledger StellarCoreRunner.read_prepared at hc
  cases hp : c.stellar_core_runner.prepared with
  | none => rw [hp] at hc; exact absurd hc (by simp)
  | some prepared => simp [hp]

/-- Witness for C10 at the demo configuration and sequence 7. -/
theorem c10_get_ledger_before_prepare_panics_witness :
    (CaptiveCore.new demoConfig).get_ledger 7 = none ∧
    (CaptiveCore.new demoConfig).get_ledger 7
      ≠ some (.error CoreError.LedgerNotFound) ∧
    ∀ c : CaptiveCore, c.get_ledger 7 = some (.error CoreError.LedgerNotFound) →
      c.stellar_core_runner.prepared.isSome :=
  c10_get_ledger_before_prepare_panics demoConfig 7

/-- C4 counterexample: the online run entry point does NOT perform a
["new-db"] invocation — that line is commented out in the source
(src/core_runner.rs lines 436-437). On a fresh runner with both execs
succeeding, the full event trace holds no new-db spawn: it is exactly the
synchronous warm-up catchup, its wait, and the long-running run spawn. -/
theorem c4_no_new_db_counterexample :
    RunnerEvent.spawn (["new-db"] ++ commonSuffix "/tmp/rs_ingestion_temp")
      ∉ ((StellarCoreRunner.new demoConfig).run true true []).1 ∧
    ((StellarCoreRunner.new demoConfig).run true true []).1
      = [.spawn (["catchup", "current/2"]
           ++ commonSuffix "/tmp/rs_ingestion_temp"),
         .waitChild,
         .spawn (runArgs ++ commonSuffix "/tmp/rs_ingestion_temp")] := by
  constructor
  · decide
  · rfl

/-- C4 amended: for every invocation of the online-mode run entry point
(with both execs succeeding), the Runner performs exactly ONE synchronous
child invocation awaited to completion — ["catchup", "current/2"], whose
spawn error is discarded — before spawning the long-running child with
["run", "--metadata-output-stream fd:1"]; no ["new-db"] invocation occurs
(the new-db line is commented out in the source). -/
theorem c4_amended_single_warmup_then_run (r : StellarCoreRunner)
    (frames : List Frame) (h : r.status = RunnerStatus.Closed) :
    (r.run true true frames).1
      = [.spawn (["catchup", "current/2"] ++ commonSuffix r.context_path),
         .waitChild,
         .spawn (runArgs ++ commonSuffix r.context_path)] ∧
    ∀ rest : List String,
      RunnerEvent.spawn ("new-db" :: rest) ∉ (r.run true true frames).1 := by
  have htrace : (r.run true true frames).1
      = [.spawn (["catchup", "current/2"] ++ commonSuffix r.context_path),
         .waitChild,
         .spawn (runArgs ++ commonSuffix r.context_path)] := by
    obtain ⟨ep, cp, st, lbr, prep, proc, bbs, stag⟩ := r
    simp only at h
    subst h
    rfl
  refine ⟨htrace, ?_⟩
  intro rest hmem
  rw [htrace] at hmem
  simp [commonSuffix, runArgs] at hmem

/-- Witness for C4 amended at the fresh demo runner. -/
theorem c4_amended_single_warmup_then_run_witness :
    ((StellarCoreRunner.new demoConfig).run true true []).1
      = [.spawn (["catchup", "current/2"]
           ++ commonSuffix (StellarCoreRunner.new demoConfig).context_path),
         .waitChild,
         .spawn (runArgs
           ++ commonSuffix (StellarCoreRunner.new demoConfig).context_path)] ∧
    ∀ rest : List String,
      RunnerEvent.spawn ("new-db" :: rest)
        ∉ ((StellarCoreRunner.new demoConfig).run true true []).1 :=
  c4_amended_single_warmup_then_run (StellarCoreRunner.new demoConfig) []
    (by decide)

/-- C5 counterexample: the staggered segment child is NOT spawned with
["catchup", "{end}/{end−start+1}", "--metadata-output-stream fd:1"]: the
source (src/core_runner.rs lines 299-305 and 360-366) passes
"--in-memory" in the segment invocation too. Concretely, for the range
[0, 100] with stagger 10 the first supervisor spawn carries --in-memory
and the claimed --in-memory-free argument vector occurs nowhere. -/
theorem c5_stagger_in_memory_counterexample :
    ((StellarCoreRunner.new demoConfigStaggered).catchup_multi_thread
        0 100 true []).1.head?
      = some (.spawn (["catchup", "--in-memory", "9/10",
          "--metadata-output-stream fd:1"]
          ++ commonSuffix "/tmp/rs_ingestion_temp")) ∧
    RunnerEvent.spawn (["catchup", "9/10", "--metadata-output-stream fd:1"]
        ++ commonSuffix "/tmp/rs_ingestion_temp")
      ∉ ((StellarCoreRunner.new demoConfigStaggered).catchup_multi_thread
          0 100 true []).1 := by
  constructor
  · rfl
  · decide

/-- C5 amended: for every staggered catchup with at least two segments, the
supervisor spawns each fresh segment child with the arguments
["catchup", "--in-memory", "{end}/{end−start+1}",
"--metadata-output-stream fd:1"] (wrapping u32 count) plus the common
--conf and --ll suffix: the --in-memory flag IS present in the segment
invocation, exactly as in the non-staggered offline catchup. -/
theorem c5_amended_segment_args (r : StellarCoreRunner)
    (fromL toL S : Nat) (frames : List Frame)
    (hC : r.status = RunnerStatus.Closed) (hS : r.staggered = some S)
    (hk : 2 ≤ wsub toL fromL / S) :
    (r.catchup_multi_thread fromL toL true frames).1
      = (staggerRanges fromL toL S).map fun p =>
          RunnerEvent.spawn (["catchup", "--in-memory",
            toString p.2 ++ "/" ++ toString (wadd (wsub p.2 p.1) 1),
            "--metadata-output-stream fd:1"]
            ++ commonSuffix r.context_path) := by
  obtain ⟨ep, cp, st, lbr, prep, proc, bbs, stag⟩ := r
  simp only at hC hS ⊢
  subst hC
  subst hS
  have hnot : ¬ wsub toL fromL / S ≤ 1 := by omega
  simp [StellarCoreRunner.catchup_multi_thread, hnot, catchupArgs]

/-- Witness for C5 amended: the ten-segment stagger of [0, 100] by 10. -/
theorem c5_amended_segment_args_witness :
    ((StellarCoreRunner.new demoConfigStaggered).catchup_multi_thread
        0 100 true []).1
      = (staggerRanges 0 100 10).map fun p =>
          RunnerEvent.spawn (["catchup", "--in-memory",
            toString p.2 ++ "/" ++ toString (wadd (wsub p.2 p.1) 1),
            "--metadata-output-stream fd:1"]
            ++ commonSuffix
                (StellarCoreRunner.new demoConfigStaggered).context_path) :=
  c5_amended_segment_args (StellarCoreRunner.new demoConfigStaggered)
    0 100 10 [] (by decide) (by decide) (by decide)

/-- The Facade state after a completed single-thread preparation of
[3, 5] on the fresh demo Facade with one decoded frame: the Runner has
self-closed (status Closed), cleared its reader, and loaded the prepared
set. Used by the C7 counterexample. -/
def postSingleThreadPrep : CaptiveCore :=
  ⟨{ executable_path := "stellar-core"
     context_path := "/tmp/rs_ingestion_temp"
     status := .Closed
     ledger_buffer_reader := none
     prepared := some [MetaResult.mk (some ⟨.V0 3⟩) none]
     process := false
     bounded_buffer_size := none
     staggered := none }⟩

/-- C7 counterexample: after a single-thread preparation the Facade does
NOT answer close_runner_process with CloseOnSingleThread: the single-thread
path self-closes and clears the reader (src/core_runner.rs line 240 via
close_runner, lines 459-471), so thread_mode reports no reader at all and
close_runner_process falls through to close_runner, which fails with
Core(AlreadyRunning) on the already-Closed status. -/
theorem c7_close_after_single_thread_prep_counterexample :
    ((CaptiveCore.new demoConfig).prepare_ledgers_single_thread
        (.Bounded 3 5) true [Frame.ok (.V0 3)]).2
      = some (.ok postSingleThreadPrep) ∧
    postSingleThreadPrep.stellar_core_runner.thread_mode = none ∧
    postSingleThreadPrep.close_runner_process
      = .error (.Core .AlreadyRunning) ∧
    postSingleThreadPrep.close_runner_process
      ≠ .error CoreError.CloseOnSingleThread := by
  refine ⟨rfl, rfl, rfl, by decide⟩

/-- C7 amended: close_runner_process returns CloseOnSingleThread exactly
while the Runner currently holds a SingleThread reader (a state the public
API leaves behind only if a single-thread catchup aborts midway, since a
completed one self-closes and clears the reader); after a completed
single-thread preparation the status is already Closed and the call fails
with Core(AlreadyRunning) instead; and it succeeds only when the status is
not Closed and no SingleThread reader is held — that is, only in a
multi-thread or online mode. -/
theorem c7_amended_close_runner_process (c : CaptiveCore) :
    (c.stellar_core_runner.thread_mode = some .SingleThread →
      c.close_runner_process = .error CoreError.CloseOnSingleThread) ∧
    (∀ cOut : CaptiveCore, c.close_runner_process = .ok cOut →
      c.stellar_core_runner.thread_mode ≠ some .SingleThread ∧
      c.stellar_core_runner.status ≠ RunnerStatus.Closed) ∧
    (c.stellar_core_runner.status = RunnerStatus.Closed →
      c.stellar_core_runner.thread_mode ≠ some .SingleThread →
      c.close_runner_process = .error (.Core .AlreadyRunning)) := by
  refine ⟨?_, ?_, ?_⟩
  · intro h
    simp [CaptiveCore.close_runner_process, h]
  · intro cOut hok
    by_cases hm : c.stellar_core_runner.thread_mode = some .SingleThread
    · simp [CaptiveCore.close_runner_process, hm] at hok
    · refine ⟨hm, ?_⟩
      intro hst
      simp [CaptiveCore.close_runner_process, hm,
        StellarCoreRunner.close_runner, hst] at hok
  · intro hst hm
    simp [CaptiveCore.close_runner_process, hm,
      StellarCoreRunner.close_runner, hst]

/-- Witness for C7 amended at a Facade holding a SingleThread reader (the
midway state of a single-thread catchup), where the first conjunct fires. -/
theorem c7_amended_close_runner_process_witness :
    (({ stellar_core_runner :=
        { StellarCoreRunner.new demoConfig with
            status := RunnerStatus.RunningOffline
            ledger_buffer_reader :=
              some (BufferedLedgerMetaReader.mk .SingleThread none (some [])
                false true) } } : CaptiveCore).stellar_core_runner.thread_mode
        = some .SingleThread →
      ({ stellar_core_runner :=
        { StellarCoreRunner.new demoConfig with
            status := RunnerStatus.RunningOffline
            ledger_buffer_reader :=
              some (BufferedLedgerMetaReader.mk .SingleThread none (some [])
                false true) } } : CaptiveCore).close_runner_process
        = .error CoreError.CloseOnSingleThread) ∧
    (∀ cOut : CaptiveCore,
      ({ stellar_core_runner :=
        { StellarCoreRunner.new demoConfig with
            status := RunnerStatus.RunningOffline
            ledger_buffer_reader :=
              some (BufferedLedgerMetaReader.mk .SingleThread none (some [])
                false true) } } : CaptiveCore).close_runner_process = .ok cOut →
      ({ stellar_core_runner :=
        { StellarCoreRunner.new demoConfig with
            status := RunnerStatus.RunningOffline
            ledger_buffer_reader :=
              some (BufferedLedgerMetaReader.mk .SingleThread none (some [])
                false true) } } : CaptiveCore).stellar_core_runner.thread_mode
        ≠ some .SingleThread ∧
      ({ stellar_core_runner :=
        { StellarCoreRunner.new demoConfig with
            status := RunnerStatus.RunningOffline
            ledger_buffer_reader :=
              some (BufferedLedgerMetaReader.mk .SingleThread none (some [])
                false true) } } : CaptiveCore).stellar_core_runner.status
        ≠ RunnerStatus.Closed) ∧
    (({ stellar_core_runner :=
        { StellarCoreRunner.new demoConfig with
            status := RunnerStatus.RunningOffline
            ledger_buffer_reader :=
              some (BufferedLedgerMetaReader.mk .SingleThread none (some [])
                false true) } } : CaptiveCore).stellar_core_runner.status
        = RunnerStatus.Closed →
      ({ stellar_core_runner :=
        { StellarCoreRunner.new demoConfig with
            status := RunnerStatus.RunningOffline
            ledger_buffer_reader :=
              some (BufferedLedgerMetaReader.mk .SingleThread none (some [])
                false true) } } : CaptiveCore).stellar_core_runner.thread_mode
        ≠ some .SingleThread →
      ({ stellar_core_runner :=
        { StellarCoreRunner.new demoConfig with
            status := RunnerStatus.RunningOffline
            ledger_buffer_reader :=
              some (BufferedLedgerMetaReader.mk .SingleThread none (some [])
                false true) } } : CaptiveCore).close_runner_process
        = .error (.Core .AlreadyRunning)) :=
  c7_amended_close_runner_process
    { stellar_core_runner :=
      { StellarCoreRunner.new demoConfig with
          status := RunnerStatus.RunningOffline
          ledger_buffer_reader :=
            some (BufferedLedgerMetaReader.mk .SingleThread none (some [])
              false true) } }

/-- C3 counterexample: a bounded range with from > to is NOT rejected at
the Facade — no from ≤ to validation exists in
prepare_ledgers_single_thread (src/captive_core.rs lines 94-102); the
range is delegated to the Runner and the wire count to − from + 1 IS
computed (in wrapping u32 arithmetic, giving 4294967295 for from = 5,
to = 3) and spawned to the child; the preparation even returns Ok. -/
theorem c3_facade_no_range_validation_counterexample :
    ((CaptiveCore.new demoConfig).prepare_ledgers_single_thread
        (.Bounded 5 3) true []).1
      = [.spawn (["catchup", "--in-memory", "3/4294967295",
          "--metadata-output-stream fd:1"]
          ++ commonSuffix "/tmp/rs_ingestion_temp")] ∧
    ((CaptiveCore.new demoConfig).prepare_ledgers_single_thread
        (.Bounded 5 3) true []).2
      = some (.ok ⟨{ executable_path := "stellar-core"
                     context_path := "/tmp/rs_ingestion_temp"
                     status := .Closed
                     ledger_buffer_reader := none
                     prepared := some []
                     process := false
                     bounded_buffer_size := none
                     staggered := none }⟩) := by
  exact ⟨rfl, rfl⟩

/-- C3 amended: the Facade performs NO from ≤ to validation: every bounded
range is destructured and delegated unchanged to the Runner, where the
wire count to − from + 1 is computed unconditionally in u32 arithmetic;
for from > to the count arithmetic is reached and underflows (wrapping, to
(2^32 − (from − to) + 1) mod 2^32, for example 4294967295 for (5, 3)) and
the child is spawned with that count — the preparation is not rejected. -/
theorem c3_amended_no_validation_delegates_wrapped (c : CaptiveCore)
    (fromL toL : Nat) (frames : List Frame)
    (hC : c.stellar_core_runner.status = RunnerStatus.Closed)
    (hf : fromL < U32) (ht : toL < fromL) :
    (c.prepare_ledgers_single_thread (.Bounded fromL toL) true frames).1
      = [.spawn (catchupArgs fromL toL
          ++ commonSuffix c.stellar_core_runner.context_path)] ∧
    (∃ cOut : CaptiveCore,
      (c.prepare_ledgers_single_thread (.Bounded fromL toL) true frames).2
        = some (.ok cOut)) ∧
    wadd (wsub toL fromL) 1 = (U32 - (fromL - toL) + 1) % U32 := by
  obtain ⟨⟨ep, cp, st, lbr, prep, proc, bbs, stag⟩⟩ := c
  simp only at hC
  subst hC
  refine ⟨rfl, ⟨_, rfl⟩, ?_⟩
  simp only [wadd, wsub, U32] at *
  omega

/-- Witness for C3 amended at the fresh demo Facade and the inverted
range (5, 3). -/
theorem c3_amended_no_validation_delegates_wrapped_witness :
    ((CaptiveCore.new demoConfig).prepare_ledgers_single_thread
        (.Bounded 5 3) true []).1
      = [.spawn (catchupArgs 5 3
          ++ commonSuffix
              (CaptiveCore.new demoConfig).stellar_core_runner.context_path)] ∧
    (∃ cOut : CaptiveCore,
      ((CaptiveCore.new demoConfig).prepare_ledgers_single_thread
          (.Bounded 5 3) true []).2 = some (.ok cOut)) ∧
    wadd (wsub 3 5) 1 = (U32 - (5 - 3) + 1) % U32 :=
  c3_amended_no_validation_delegates_wrapped (CaptiveCore.new demoConfig)
    5 3 [] (by decide) (by decide) (by decide)

set_option maxRecDepth 4000 in
/-- C6: for every multi-thread catchup over [from, to] with stagger size S
set (0 < S, from ≤ to, and to small enough that the u32 arithmetic does
not wrap): the segment count is k = (to − from) / S; when k ≤ 1 a single
non-staggered catchup child is run instead; otherwise the range is
partitioned with step = (to − from + 1) / k into exactly k segments, where
segment i covers [from + i·step, min(from + (i+1)·step − 1, to)]
(src/core_runner.rs lines 256-292). -/
theorem c6_stagger_partition (fromL toL S : Nat) (hle : fromL ≤ toL)
    (hS : 0 < S) (hto : toL ≤ 4294967294) :
    ((toL - fromL) / S ≤ 1 →
      ∀ (r : StellarCoreRunner) (frames : List Frame),
        r.status = RunnerStatus.Closed → r.staggered = some S →
        (r.catchup_multi_thread fromL toL true frames).1
          = [.spawn (catchupArgs fromL toL ++ commonSuffix r.context_path)]) ∧
    (2 ≤ (toL - fromL) / S →
      (staggerRanges fromL toL S).length = (toL - fromL) / S ∧
      ∀ i : Nat, i < (toL - fromL) / S →
        (staggerRanges fromL toL S)[i]?
          = some (fromL + i * ((toL - fromL + 1) / ((toL - fromL) / S)),
              min (fromL + (i + 1) * ((toL - fromL + 1) / ((toL - fromL) / S))
                  - 1)
                toL)) := by
  have hUto : toL < U32 := by simp only [U32]; omega
  have hw : wsub toL fromL = toL - fromL := wsub_eq_of_le hle hUto
  have hw1 : wadd (toL - fromL) 1 = toL - fromL + 1 :=
    wadd_eq_of_lt (by simp only [U32]; omega)
  constructor
  · intro hk1 r frames hC hSr
    obtain ⟨ep, cp, st, lbr, prep, proc, bbs, stag⟩ := r
    simp only at hC hSr
    subst hC
    subst hSr
    simp [StellarCoreRunner.catchup_multi_thread, hw, hk1,
      StellarCoreRunner.start_multi, StellarCoreRunner.run_core_cli,
      BufferedLedgerMetaReader.new]
  · intro hk2
    have hk0 : 0 < (toL - fromL) / S := by omega
    have hkD : (toL - fromL) / S ≤ toL - fromL + 1 :=
      le_trans (Nat.div_le_self _ _) (Nat.le_succ _)
    have hst1 : 1 ≤ (toL - fromL + 1) / ((toL - fromL) / S) :=
      (Nat.one_le_div_iff hk0).mpr hkD
    have hkst : (toL - fromL) / S * ((toL - fromL + 1) / ((toL - fromL) / S))
        ≤ toL - fromL + 1 := by
      have h := Nat.div_mul_le_self (toL - fromL + 1) ((toL - fromL) / S)
      calc (toL - fromL) / S * ((toL - fromL + 1) / ((toL - fromL) / S))
          = (toL - fromL + 1) / ((toL - fromL) / S) * ((toL - fromL) / S) :=
            Nat.mul_comm _ _
        _ ≤ toL - fromL + 1 := h
    constructor
    · simp [staggerRanges, hw]
    · intro i hi
      have histep : (i + 1) * ((toL - fromL + 1) / ((toL - fromL) / S))
          ≤ (toL - fromL) / S * ((toL - fromL + 1) / ((toL - fromL) / S)) :=
        Nat.mul_le_mul_right _ hi
      have hsucc : (i + 1) * ((toL - fromL + 1) / ((toL - fromL) / S))
          = i * ((toL - fromL + 1) / ((toL - fromL) / S))
            + (toL - fromL + 1) / ((toL - fromL) / S) := by ring
      have hiD : i * ((toL - fromL + 1) / ((toL - fromL) / S))
          + (toL - fromL + 1) / ((toL - fromL) / S) ≤ toL - fromL + 1 := by
        omega
      have hm : wmul i ((toL - fromL + 1) / ((toL - fromL) / S))
          = i * ((toL - fromL + 1) / ((toL - fromL) / S)) :=
        wmul_eq_of_lt (by simp only [U32]; omega)
      have ha1 : wadd fromL (i * ((toL - fromL + 1) / ((toL - fromL) / S)))
          = fromL + i * ((toL - fromL + 1) / ((toL - fromL) / S)) :=
        wadd_eq_of_lt (by simp only [U32]; omega)
      have ha2 : wadd (fromL + i * ((toL - fromL + 1) / ((toL - fromL) / S)))
            ((toL - fromL + 1) / ((toL - fromL) / S))
          = fromL + i * ((toL - fromL + 1) / ((toL - fromL) / S))
            + (toL - fromL + 1) / ((toL - fromL) / S) :=
        wadd_eq_of_lt (by simp only [U32]; omega)
      have hs1 : wsub (fromL + i * ((toL - fromL + 1) / ((toL - fromL) / S))
            + (toL - fromL + 1) / ((toL - fromL) / S)) 1
          = fromL + i * ((toL - fromL + 1) / ((toL - fromL) / S))
            + (toL - fromL + 1) / ((toL - fromL) / S) - 1 :=
        wsub_eq_of_le (by omega) (by simp only [U32]; omega)
      simp only [staggerRanges, hw, hw1, List.getElem?_map,
        List.getElem?_range, hi, if_pos, Option.map_some', hm, ha1, ha2, hs1]
      rw [hsucc, Nat.add_assoc]

/-- Witness for C6: the ten-segment stagger of [0, 100] by 10 — both the
fallthrough condition (vacuously, since k = 10) and the partition. -/
theorem c6_stagger_partition_witness :
    ((100 - 0) / 10 ≤ 1 →
      ∀ (r : StellarCoreRunner) (frames : List Frame),
        r.status = RunnerStatus.Closed → r.staggered = some 10 →
        (r.catchup_multi_thread 0 100 true frames).1
          = [.spawn (catchupArgs 0 100 ++ commonSuffix r.context_path)]) ∧
    (2 ≤ (100 - 0) / 10 →
      (staggerRanges 0 100 10).length = (100 - 0) / 10 ∧
      ∀ i : Nat, i < (100 - 0) / 10 →
        (staggerRanges 0 100 10)[i]?
          = some (0 + i * ((100 - 0 + 1) / ((100 - 0) / 10)),
              min (0 + (i + 1) * ((100 - 0 + 1) / ((100 - 0) / 10)) - 1)
                100)) :=
  c6_stagger_partition 0 100 10 (by decide) (by decide) (by decide)

end RsIngest
